import Mathlib

/-
  Formal model of the session and token-lifecycle subsystem of the
  book-club platform (frontend HTTP transport, session storage, auth
  state slice, and the refresh-credential rotation engine).

  The client-side definitions are shallow embeddings of:
    - frontend/app/src/global/utils/session-manager.ts
    - frontend/app/src/global/store/slices/authSlice.ts
    - frontend/app/src/global/api/http-client.ts (createDefaultHttpClient)
  The server-side rotation store is modelled from the design document,
  since the backend refresh-token engine is not part of the source tree
  (the backend README lists it as unimplemented future work).
-/

namespace PublicSquare

/-! ## Association-list maps

Browser sessionStorage, the interceptor task table and the refresh-call
outcome table are all modelled as association lists with
most-recent-binding-first lookup. -/

/-- Lookup in an association list: the most recently set binding wins. -/
def alookup {κ α : Type} [DecidableEq κ] : List (κ × α) → κ → Option α
  | [], _ => none
  | (k, v) :: ts, key => if k = key then some v else alookup ts key

/-- Set a binding (models assignment: the new binding shadows older ones). -/
def aset {κ α : Type} (ts : List (κ × α)) (k : κ) (v : α) : List (κ × α) :=
  (k, v) :: ts

/-- Remove every binding for a key (models sessionStorage.removeItem). -/
def aremove {κ α : Type} [DecidableEq κ] (ts : List (κ × α)) (k : κ) : List (κ × α) :=
  ts.filter (fun e => decide (e.1 ≠ k))

/-! ## String search

Models JavaScript String.prototype.includes, used by the response
interceptor to recognize the refresh endpoint. -/

/-- Whether the first character list is an initial segment of the second. -/
def listStartsWith : List Char → List Char → Bool
  | [], _ => true
  | _ :: _, [] => false
  | a :: as, b :: bs => a == b && listStartsWith as bs

/-- Whether the first character list occurs contiguously inside the second. -/
def listHasSub (pat : List Char) : List Char → Bool
  | [] => listStartsWith pat []
  | b :: bs => listStartsWith pat (b :: bs) || listHasSub pat bs

/-- Models JavaScript hay.includes(pat). -/
def strIncludes (hay pat : String) : Bool :=
  listHasSub pat.toList hay.toList

/-! ## SessionManager (session-manager.ts)

sessionStorage is modelled as a string association list. The decoding
pipeline of decodeToken (base64url split, atob, decodeURIComponent,
JSON.parse) is abstracted as a parameter decodeRaw : String → Option
TokenPayload; decodeRaw t = none models the pipeline throwing, which
decodeToken catches, returning the empty payload. -/

/-- Browser sessionStorage contents. -/
abbrev Storage : Type := List (String × String)

/-- config.tokenStorageKey in config.ts. -/
def tokenStorageKey : String := "auth_token"

/-- Decoded JWT payload shape declared in session-manager.ts; absent
JSON fields are modelled as none. -/
structure TokenPayload where
  user_id : Option String := none
  exp : Option Nat := none
  iat : Option Nat := none
deriving DecidableEq

namespace SessionManager

/-- SessionManager.setToken: sessionStorage.setItem(TOKEN_KEY, token). -/
def setToken (st : Storage) (token : String) : Storage :=
  aset st tokenStorageKey token

/-- SessionManager.getToken: sessionStorage.getItem(TOKEN_KEY). -/
def getToken (st : Storage) : Option String :=
  alookup st tokenStorageKey

/-- SessionManager.clearToken: sessionStorage.removeItem(TOKEN_KEY). -/
def clearToken (st : Storage) : Storage :=
  aremove st tokenStorageKey

/-- SessionManager.decodeToken: the try block is decodeRaw; the catch
branch returns the empty object literal. -/
def decodeToken (decodeRaw : String → Option TokenPayload) (token : String) : TokenPayload :=
  match decodeRaw token with
  | some p => p
  | none => {}

/-- SessionManager.hasValidSession. A missing or empty token is falsy
and yields false; payload.exp is truthy only when present and nonzero;
a truthy exp is compared against Date.now() in milliseconds; otherwise
the method returns true. decodeToken is total, so its surrounding
try/catch never takes the catch branch. -/
def hasValidSession (decodeRaw : String → Option TokenPayload) (st : Storage) (now : Nat) : Bool :=
  match getToken st with
  | none => false
  | some token =>
    if token = "" then false
    else
      let payload := decodeToken decodeRaw token
      match payload.exp with
      | some e => if e ≠ 0 then decide (now < e * 1000) else true
      | none => true

end SessionManager

/-! ## Auth Redux slice (authSlice.ts) -/

/-- User record returned by GET /users/me (only identity matters here). -/
structure User where
  id : String
deriving DecidableEq

/-- Token response returned by the login/register services. -/
structure TokenResponse where
  access_token : String
deriving DecidableEq

/-- AuthState interface in authSlice.ts. -/
structure AuthState where
  user : Option User
  token : Option String
  isAuthenticated : Bool
  isLoading : Bool
  error : Option String
deriving DecidableEq

/-- The initial auth state built at module load: token is read from
sessionStorage and isAuthenticated from hasValidSession. -/
def authInitialState (decodeRaw : String → Option TokenPayload) (st : Storage) (now : Nat) :
    AuthState :=
  { user := none
    token := SessionManager.getToken st
    isAuthenticated := SessionManager.hasValidSession decodeRaw st now
    isLoading := false
    error := none }

/-- Result of an async thunk as observed by the reducers. -/
inductive ThunkResult where
  | fulfilled (tr : TokenResponse) (u : User)
  | rejected (msg : String)
deriving DecidableEq

/-- The loginAsync thunk body, as a function of the outcome of the
login service plus user fetch: on success it stores the access token
via SessionManager.setToken, on any error it clears the stored token
and rejects. Returns the updated sessionStorage and the thunk result. -/
def loginAsyncRun (st : Storage) (svc : Except String (TokenResponse × User)) :
    Storage × ThunkResult :=
  match svc with
  | .ok (tr, u) => (SessionManager.setToken st tr.access_token, .fulfilled tr u)
  | .error e => (SessionManager.clearToken st, .rejected e)

/-- The registerAsync thunk body; identical storage behavior to login. -/
def registerAsyncRun (st : Storage) (svc : Except String (TokenResponse × User)) :
    Storage × ThunkResult :=
  match svc with
  | .ok (tr, u) => (SessionManager.setToken st tr.access_token, .fulfilled tr u)
  | .error e => (SessionManager.clearToken st, .rejected e)

/-- The logout reducer: clears the stored token and resets user, token,
isAuthenticated and error. -/
def logoutReducer (st : Storage) (s : AuthState) : Storage × AuthState :=
  (SessionManager.clearToken st,
   { s with user := none, token := none, isAuthenticated := false, error := none })

/-- The setToken reducer: stores the token and marks authenticated. -/
def setTokenReducer (st : Storage) (s : AuthState) (token : String) : Storage × AuthState :=
  (SessionManager.setToken st token,
   { s with token := some token, isAuthenticated := true })

/-! ## RefreshTokenStore and RefreshRotationEngine

Modelled from the spec: the backend refresh-token rotation engine is
not implemented in the source tree (the backend README lists
"Implement refresh tokens" among its next steps); only the persisted
column layout exists, in models.md under refresh_tokens. The row shape
below follows models.md; the operations create, findActive, rotate,
revokeChain and the refresh decision procedure follow spec sections
4.1 and 4.2. UUID identifiers are modelled as naturals drawn from a
fresh counter. -/

/-- A refresh_tokens row (columns from models.md). -/
structure RefreshCredential where
  id : Nat
  user_id : Nat
  token_hash : String
  expires_at : Nat
  created_at : Nat
  revoked : Bool
  replaced_by_token_id : Option Nat
  device_info : Option String
  ip_address : Option String
deriving DecidableEq

/-- Modelled from the spec: the durable store of refresh credentials,
with a counter supplying fresh identifiers. -/
structure TokenStore where
  rows : List RefreshCredential
  nextId : Nat
deriving DecidableEq

/-- The store holding no credentials. -/
def emptyStore : TokenStore := { rows := [], nextId := 0 }

/-- Modelled from the spec: findActive looks a row up by identifier and
returns it regardless of revoked state (revocation is checked by the
caller). -/
def findRow (s : TokenStore) (id : Nat) : Option RefreshCredential :=
  s.rows.find? (fun r => r.id = id)

/-- Modelled from the spec: create generates a fresh identifier and
expiry and inserts an active (non-revoked, successor-free) row. -/
def createCredential (s : TokenStore) (uid now ttl : Nat) (dev ip : Option String) :
    TokenStore × RefreshCredential :=
  let nc : RefreshCredential :=
    { id := s.nextId, user_id := uid, token_hash := "", expires_at := now + ttl
      created_at := now, revoked := false, replaced_by_token_id := none
      device_info := dev, ip_address := ip }
  ({ rows := s.rows ++ [nc], nextId := s.nextId + 1 }, nc)

/-- Failure modes of rotate per spec section 4.1. -/
inductive RotateError where
  | notFound
  | conflict
deriving DecidableEq

/-- Modelled from the spec: rotate atomically marks the old row revoked,
stamps its successor reference with the fresh identifier, and creates
the new row; it fails with conflict when the old row is already revoked
(the replay-detection signal). -/
def rotate (s : TokenStore) (oldId now ttl : Nat) (dev ip : Option String) :
    Except RotateError (TokenStore × RefreshCredential) :=
  match findRow s oldId with
  | none => .error .notFound
  | some row =>
    if row.revoked then .error .conflict
    else
      let nc : RefreshCredential :=
        { id := s.nextId, user_id := row.user_id, token_hash := "", expires_at := now + ttl
          created_at := now, revoked := false, replaced_by_token_id := none
          device_info := dev, ip_address := ip }
      .ok ({ rows := (s.rows.map (fun r =>
              if r.id = oldId then { r with revoked := true, replaced_by_token_id := some s.nextId }
              else r)) ++ [nc]
             nextId := s.nextId + 1 }, nc)

/-- Walk predecessor links (rows whose successor reference is the given
identifier) back to the first credential of the chain; fuel bounds the
walk. -/
def rootOf (s : TokenStore) : Nat → Nat → Nat
  | 0, id => id
  | fuel + 1, id =>
    match s.rows.find? (fun r => r.replaced_by_token_id = some id) with
    | none => id
    | some p => rootOf s fuel p.id

/-- Walk successor links forward from an identifier, collecting the
identifiers of existing rows; fuel bounds the walk. -/
def forwardChain (s : TokenStore) : Nat → Nat → List Nat
  | 0, id =>
    match findRow s id with
    | none => []
    | some _ => [id]
  | fuel + 1, id =>
    match findRow s id with
    | none => []
    | some row =>
      match row.replaced_by_token_id with
      | none => [id]
      | some nxt => id :: forwardChain s fuel nxt

/-- The rotation chain containing an identifier: walk back to the root
of the chain, then forward through every successor link. -/
def chainMembers (s : TokenStore) (id : Nat) : List Nat :=
  forwardChain s s.rows.length (rootOf s s.rows.length id)

/-- Modelled from the spec: revokeChain walks successor and predecessor
links and revokes every credential of the chain. -/
def revokeChain (s : TokenStore) (id : Nat) : TokenStore :=
  { s with rows := s.rows.map (fun r =>
      if r.id ∈ chainMembers s id then { r with revoked := true } else r) }

/-- Modelled from the spec: POST /auth/logout revokes the active
refresh credential chain link (the single presented row). -/
def revokeCredential (s : TokenStore) (id : Nat) : TokenStore :=
  { s with rows := s.rows.map (fun r =>
      if r.id = id then { r with revoked := true } else r) }

/-- Terminal session failure classes of the rotation engine. -/
inductive SessionError where
  | SessionInvalid
  | SessionCompromised
  | SessionExpired
deriving DecidableEq

/-- Modelled from the spec: the refresh decision procedure of section
4.2. Unknown identifier fails SessionInvalid; a revoked row is reuse of
a stale credential, so the whole chain is revoked and the call fails
SessionCompromised; an expired row fails SessionExpired; otherwise the
chain is rotated and a fresh access token is issued alongside the new
refresh credential. -/
def refreshEngine (s : TokenStore) (id now ttl : Nat) (dev ip : Option String) :
    TokenStore × Except SessionError (String × RefreshCredential) :=
  match findRow s id with
  | none => (s, .error .SessionInvalid)
  | some row =>
    if row.revoked then (revokeChain s id, .error .SessionCompromised)
    else if row.expires_at ≤ now then (s, .error .SessionExpired)
    else
      match rotate s id now ttl dev ip with
      | .ok (s', nc) => (s', .ok ("tok-" ++ Nat.repr nc.id, nc))
      | .error _ => (s, .error .SessionInvalid)

/-- Whether the row for an identifier is active (present, non-revoked,
unexpired) at a given time. -/
def isActive (s : TokenStore) (now a : Nat) : Bool :=
  match findRow s a with
  | none => false
  | some r => !r.revoked && decide (now < r.expires_at)

/-- Stores reachable from the empty store through the modelled
operations. -/
inductive Reachable : TokenStore → Prop where
  | empty : Reachable emptyStore
  | create {s : TokenStore} (uid now ttl : Nat) (dev ip : Option String) :
      Reachable s → Reachable (createCredential s uid now ttl dev ip).1
  | rotateOk {s s' : TokenStore} {nc : RefreshCredential} (oldId now ttl : Nat)
      (dev ip : Option String) :
      Reachable s → rotate s oldId now ttl dev ip = .ok (s', nc) → Reachable s'
  | revokeChainStep {s : TokenStore} (id : Nat) : Reachable s → Reachable (revokeChain s id)
  | revokeOne {s : TokenStore} (id : Nat) : Reachable s → Reachable (revokeCredential s id)
  | refreshStep {s : TokenStore} (id now ttl : Nat) (dev ip : Option String) :
      Reachable s → Reachable (refreshEngine s id now ttl dev ip).1

/-- Structural store invariant: every row carrying a successor
reference is revoked, and every row identifier is below the fresh
counter. -/
def GoodStore (s : TokenStore) : Prop :=
  (∀ r ∈ s.rows, r.replaced_by_token_id ≠ none → r.revoked = true) ∧
  (∀ r ∈ s.rows, r.id < s.nextId)

/-- The logoutAsync thunk dispatched by useAuth.handleLogout.
Modelled from the spec: the thunk itself is imported by useAuth.ts but
absent from the source tree, and per spec section 4.4 logout calls the
server to revoke the active refresh credential chain link and then
clears client state regardless of whether that call succeeds. The
serverOk flag selects the server call outcome; the returned Bool
records that the server call was made. -/
def logoutAsyncRun (store : TokenStore) (credId : Nat) (serverOk : Bool)
    (st : Storage) (s : AuthState) : TokenStore × Bool × Storage × AuthState :=
  let store' := if serverOk then revokeCredential store credId else store
  let cleared := logoutReducer st s
  (store', true, cleared.1, cleared.2)

/-! ## TokenTransport (http-client.ts, createDefaultHttpClient)

The response-error interceptor installed by createDefaultHttpClient is
embedded as a labeled transition system over the closure state
(isRefreshing, refreshPromise) plus the HTTPClient token state and the
axios instance defaults. Each transition is one synchronous block of
the handler between suspension points, matching the single-threaded
event-loop execution model: blocks interleave only at await.

An axios internal request config (error.config) carries the request
URL and the headers flattened onto the config when the request was
dispatched, in particular the Authorization header merged in from the
instance defaults at dispatch time. When a config is handed back to
axiosInstance.request, axios merges it with the instance defaults and
per-config headers take precedence over defaults for the same key. -/

/-- An axios internal request config: URL (possibly absent) and the
Authorization header value baked into the config at dispatch time. -/
structure ReqConfig where
  url : Option String
  auth : Option String
deriving DecidableEq

/-- The guard originalRequest.url?.includes('/auth/refresh') negated as
in the interceptor condition: an absent URL is undefined, so the
negation of the optional chain is truthy and the request enters the
refresh flow. -/
def urlTriggersRefresh : Option String → Bool
  | none => true
  | some u => !(strIncludes u "/auth/refresh")

/-- The interceptor condition
apiError.status === 401 AND originalRequest AND NOT
originalRequest.url?.includes('/auth/refresh'). -/
def entersRefreshFlow (status : Nat) (cfg : Option ReqConfig) : Bool :=
  decide (status = 401) &&
    (match cfg with
     | none => false
     | some c => urlTriggersRefresh c.url)

/-- The branch the response-error interceptor takes on a failed
response, as a function of the closure flag isRefreshing. -/
inductive HandlerAction where
  | rethrowError
  | awaitInFlight
  | startNetworkRefresh
deriving DecidableEq

/-- Which branch the handler takes: outside the refresh flow the
ApiError is rethrown; inside it, an in-flight refresh is awaited,
otherwise a new refresh network call is started. The decision depends
only on status, URL and the isRefreshing flag: no per-request retry
marker exists. -/
def handlerDecision (isRefr : Bool) (status : Nat) (cfg : Option ReqConfig) : HandlerAction :=
  if entersRefreshFlow status cfg then
    (if isRefr then .awaitInFlight else .startNetworkRefresh)
  else .rethrowError

/-- Outcome of a refresh network call. -/
inductive RefreshResult where
  | ok (access_token : String)
  | failed
deriving DecidableEq

/-- Where a 401-failed request stands in the interceptor. -/
inductive Phase where
  | failed401 (cfg : ReqConfig)
  | waitingOn (cfg : ReqConfig) (rid : Nat)
  | initiated (cfg : ReqConfig) (rid : Nat)
  | retried (sent : ReqConfig)
  | rejectedTerminal (cfg : ReqConfig)
  | thrownRefresh401 (cfg : ReqConfig)
deriving DecidableEq

/-- Transport state: the closure variables of createDefaultHttpClient
(isRefreshing, refreshPromise), the HTTPClient access token and axios
defaults Authorization header, counters of refresh network calls and
dispatched session-expired events, the outcomes of refresh network
calls, and the per-request handler phases. -/
structure Sys where
  isRefreshing : Bool
  refreshPromise : Option Nat
  nextRid : Nat
  outcome : List (Nat × RefreshResult)
  accessToken : Option String
  defaultsAuth : Option String
  refreshCalls : Nat
  notifications : Nat
  tasks : List (Nat × Phase)
deriving DecidableEq

/-- HTTPClient.setAccessToken: stores the token and sets or deletes the
Bearer Authorization header on the axios instance defaults. -/
def setAccessToken (s : Sys) (t : Option String) : Sys :=
  { s with accessToken := t
           defaultsAuth := match t with
             | some tk => some ("Bearer " ++ tk)
             | none => none }

/-- The Authorization header a re-dispatched config goes out with:
axios merges the stored config with the instance defaults, and the
header already baked into the config wins over the defaults. -/
def mergedAuth (s : Sys) (cfg : ReqConfig) : Option String :=
  match cfg.auth with
  | some a => some a
  | none => s.defaultsAuth

/-- The config actually sent by
client.getAxiosInstance().request(originalRequest). -/
def retriedConfig (s : Sys) (cfg : ReqConfig) : ReqConfig :=
  { url := cfg.url, auth := mergedAuth s cfg }

/-- The internal config produced when a fresh request with no per-call
Authorization header is dispatched: the instance default header is
flattened onto it. -/
def dispatchedConfig (defaultsAuth : Option String) (url : Option String) : ReqConfig :=
  { url := url, auth := defaultsAuth }

/-- Labels naming the synchronous blocks of the interceptor. -/
inductive Label where
  | enterNoFlow (tid : Nat)
  | enterAwait (tid : Nat)
  | enterAwaitNull (tid : Nat)
  | enterStart (tid : Nat)
  | refreshResolves (rid : Nat) (tok : String)
  | refreshRejects (rid : Nat)
  | awaitedOk (tid : Nat)
  | awaitedErr (tid : Nat)
  | starterOk (tid : Nat)
  | starterErr (tid : Nat)
deriving DecidableEq

/-- One synchronous block of the interceptor (or of the refresh
network call resolving), as executed by the event loop.

enterNoFlow: a 401 whose config URL includes /auth/refresh (the refresh
call itself) skips the refresh branch; the ApiError is rethrown.

enterAwait: the 401 handler observes isRefreshing and suspends on the
recorded refreshPromise.

enterAwaitNull: the handler observes isRefreshing while refreshPromise
is null; awaiting null resolves immediately and the original request is
re-dispatched at once.

enterStart: the handler observes isRefreshing false, sets it, starts
the POST /api/auth/refresh network call, records its promise, and
suspends on it.

refreshResolves: a started refresh network call succeeds; the then
callback stores the new access token via setAccessToken before the
promise held by the awaiting handlers resolves.

refreshRejects: a started refresh network call fails.

awaitedOk / awaitedErr: a handler suspended on the shared promise
resumes; on success it re-dispatches its original config, on failure it
dispatches a session-expired event, redirects, and rethrows.

starterOk / starterErr: the handler that started the refresh resumes;
on success it resets the closure flags and re-dispatches its original
config; on failure it resets the flags, clears the access token,
dispatches a session-expired event, redirects, and rethrows. -/
inductive Step : Label → Sys → Sys → Prop where
  | enterNoFlow {s : Sys} {tid : Nat} {cfg : ReqConfig} :
      alookup s.tasks tid = some (.failed401 cfg) →
      urlTriggersRefresh cfg.url = false →
      Step (.enterNoFlow tid) s
        { s with tasks := aset s.tasks tid (.thrownRefresh401 cfg) }
  | enterAwait {s : Sys} {tid rid : Nat} {cfg : ReqConfig} :
      alookup s.tasks tid = some (.failed401 cfg) →
      urlTriggersRefresh cfg.url = true →
      s.isRefreshing = true →
      s.refreshPromise = some rid →
      Step (.enterAwait tid) s
        { s with tasks := aset s.tasks tid (.waitingOn cfg rid) }
  | enterAwaitNull {s : Sys} {tid : Nat} {cfg : ReqConfig} :
      alookup s.tasks tid = some (.failed401 cfg) →
      urlTriggersRefresh cfg.url = true →
      s.isRefreshing = true →
      s.refreshPromise = none →
      Step (.enterAwaitNull tid) s
        { s with tasks := aset s.tasks tid (.retried (retriedConfig s cfg)) }
  | enterStart {s : Sys} {tid : Nat} {cfg : ReqConfig} :
      alookup s.tasks tid = some (.failed401 cfg) →
      urlTriggersRefresh cfg.url = true →
      s.isRefreshing = false →
      Step (.enterStart tid) s
        { s with isRefreshing := true
                 refreshPromise := some s.nextRid
                 nextRid := s.nextRid + 1
                 refreshCalls := s.refreshCalls + 1
                 tasks := aset s.tasks tid (.initiated cfg s.nextRid) }
  | refreshResolves {s : Sys} {rid : Nat} {tok : String} :
      alookup s.outcome rid = none →
      rid < s.nextRid →
      Step (.refreshResolves rid tok) s
        { setAccessToken s (some tok) with outcome := aset s.outcome rid (.ok tok) }
  | refreshRejects {s : Sys} {rid : Nat} :
      alookup s.outcome rid = none →
      rid < s.nextRid →
      Step (.refreshRejects rid) s
        { s with outcome := aset s.outcome rid .failed }
  | awaitedOk {s : Sys} {tid rid : Nat} {cfg : ReqConfig} {tok : String} :
      alookup s.tasks tid = some (.waitingOn cfg rid) →
      alookup s.outcome rid = some (.ok tok) →
      Step (.awaitedOk tid) s
        { s with tasks := aset s.tasks tid (.retried (retriedConfig s cfg)) }
  | awaitedErr {s : Sys} {tid rid : Nat} {cfg : ReqConfig} :
      alookup s.tasks tid = some (.waitingOn cfg rid) →
      alookup s.outcome rid = some .failed →
      Step (.awaitedErr tid) s
        { s with notifications := s.notifications + 1
                 tasks := aset s.tasks tid (.rejectedTerminal cfg) }
  | starterOk {s : Sys} {tid rid : Nat} {cfg : ReqConfig} {tok : String} :
      alookup s.tasks tid = some (.initiated cfg rid) →
      alookup s.outcome rid = some (.ok tok) →
      Step (.starterOk tid) s
        { s with isRefreshing := false
                 refreshPromise := none
                 tasks := aset s.tasks tid (.retried (retriedConfig s cfg)) }
  | starterErr {s : Sys} {tid rid : Nat} {cfg : ReqConfig} :
      alookup s.tasks tid = some (.initiated cfg rid) →
      alookup s.outcome rid = some .failed →
      Step (.starterErr tid) s
        { setAccessToken s none with
            isRefreshing := false
            refreshPromise := none
            notifications := s.notifications + 1
            tasks := aset s.tasks tid (.rejectedTerminal cfg) }

/-- A finite interleaving of synchronous blocks. -/
inductive Exec : List Label → Sys → Sys → Prop where
  | nil {s : Sys} : Exec [] s s
  | cons {l : Label} {ls : List Label} {s s1 s2 : Sys} :
      Step l s s1 → Exec ls s1 s2 → Exec (l :: ls) s s2

/-- The labels of handlers entering the interceptor for a request that
failed authorization (a 401 in the refresh flow): the start of a
refresh or the observation of one already in flight. -/
def isAuthFailEnter (l : Label) : Prop :=
  (∃ tid, l = Label.enterStart tid) ∨ (∃ tid, l = Label.enterAwait tid) ∨
    (∃ tid, l = Label.enterAwaitNull tid)

/-- Whether a block observes a failed refresh and therefore dispatches
a session-expired event (the catch branches of the awaiting handler and
of the initiating handler). -/
def observesFailure : Label → Bool
  | .awaitedErr _ => true
  | .starterErr _ => true
  | _ => false

/-- Whether the row for an identifier is present and non-revoked. -/
def isUnrevoked (s : TokenStore) (a : Nat) : Bool :=
  match findRow s a with
  | none => false
  | some r => !r.revoked

/-! ## Concrete runs

Concrete states and schedules used to evaluate the model on explicit
inputs: a client that dispatched requests under access token A1, whose
refresh either returns A2 or fails, and a one-rotation credential
chain. -/

/-- The internal config of a domain request dispatched while the axios
default Authorization header was Bearer A1. -/
def cfgClubs : ReqConfig := { url := some "/api/clubs", auth := some "Bearer A1" }

/-- A second domain request dispatched under the same default header. -/
def cfgBooks : ReqConfig := { url := some "/api/books", auth := some "Bearer A1" }

/-- Client state holding access token A1, with two domain requests just
rejected with 401 and neither handler block run yet. -/
def w1Start : Sys :=
  { isRefreshing := false, refreshPromise := none, nextRid := 0, outcome := []
    accessToken := some "A1", defaultsAuth := some "Bearer A1"
    refreshCalls := 0, notifications := 0
    tasks := [(0, .failed401 cfgClubs), (1, .failed401 cfgBooks)] }

/-- State after the first handler starts the refresh and the second
observes it in flight and awaits the recorded promise. -/
def w1End : Sys :=
  { isRefreshing := true, refreshPromise := some 0, nextRid := 1, outcome := []
    accessToken := some "A1", defaultsAuth := some "Bearer A1"
    refreshCalls := 1, notifications := 0
    tasks := [(1, .waitingOn cfgBooks 0), (0, .initiated cfgClubs 0),
              (0, .failed401 cfgClubs), (1, .failed401 cfgBooks)] }

/-- Client state holding access token A1 with a single rejected domain
request. -/
def c2Start : Sys :=
  { isRefreshing := false, refreshPromise := none, nextRid := 0, outcome := []
    accessToken := some "A1", defaultsAuth := some "Bearer A1"
    refreshCalls := 0, notifications := 0
    tasks := [(0, .failed401 cfgClubs)] }

/-- The handler starts a refresh, the refresh returns access token A2,
and the handler resumes and re-dispatches the original request. -/
def c2Trace : List Label :=
  [.enterStart 0, .refreshResolves 0 "A2", .starterOk 0]

/-- State after the successful refresh and the replay of the original
request: the stored access token is A2, but the re-dispatched config
still carries the Bearer A1 header baked in at first dispatch. -/
def c2End : Sys :=
  { isRefreshing := false, refreshPromise := none, nextRid := 1
    outcome := [(0, .ok "A2")]
    accessToken := some "A2", defaultsAuth := some "Bearer A2"
    refreshCalls := 1, notifications := 0
    tasks := [(0, .retried { url := some "/api/clubs", auth := some "Bearer A1" }),
              (0, .initiated cfgClubs 0), (0, .failed401 cfgClubs)] }

/-- Two concurrent 401 handlers share one refresh; the refresh fails;
the waiter resumes first, then the initiator. -/
def c9Trace : List Label :=
  [.enterStart 0, .enterAwait 1, .refreshRejects 0, .awaitedErr 1, .starterErr 0]

/-- State after the failed refresh is observed by both the waiting and
the initiating handler: each dispatched its own session-expired event. -/
def c9End : Sys :=
  { isRefreshing := false, refreshPromise := none, nextRid := 1
    outcome := [(0, .failed)]
    accessToken := none, defaultsAuth := none
    refreshCalls := 1, notifications := 2
    tasks := [(0, .rejectedTerminal cfgClubs), (1, .rejectedTerminal cfgBooks),
              (1, .waitingOn cfgBooks 0), (0, .initiated cfgClubs 0),
              (0, .failed401 cfgClubs), (1, .failed401 cfgBooks)] }

/-- The internal config of the refresh call itself, dispatched under
the stale default header. -/
def cfgRefreshCall : ReqConfig := { url := some "/api/auth/refresh", auth := some "Bearer A1" }

/-- Client state in which the refresh call itself was just rejected
with 401. -/
def w4Start : Sys :=
  { isRefreshing := false, refreshPromise := none, nextRid := 0, outcome := []
    accessToken := some "A1", defaultsAuth := some "Bearer A1"
    refreshCalls := 0, notifications := 0
    tasks := [(0, .failed401 cfgRefreshCall)] }

/-- State after the handler for the rejected refresh call runs: the
error is rethrown and no refresh machinery is touched. -/
def w4End : Sys :=
  { isRefreshing := false, refreshPromise := none, nextRid := 0, outcome := []
    accessToken := some "A1", defaultsAuth := some "Bearer A1"
    refreshCalls := 0, notifications := 0
    tasks := [(0, .thrownRefresh401 cfgRefreshCall), (0, .failed401 cfgRefreshCall)] }

/-- A store holding one freshly created credential for user 7. -/
def cStoreA : TokenStore := (createCredential emptyStore 7 0 100 none none).1

/-- The store after rotating credential 0: credential 0 is revoked and
points at its successor 1, which is active. -/
def cStoreB : TokenStore :=
  { rows := [{ id := 0, user_id := 7, token_hash := "", expires_at := 100, created_at := 0
               revoked := true, replaced_by_token_id := some 1
               device_info := none, ip_address := none },
             { id := 1, user_id := 7, token_hash := "", expires_at := 105, created_at := 5
               revoked := false, replaced_by_token_id := none
               device_info := none, ip_address := none }]
    nextId := 2 }

/-- The successor credential created by the rotation. -/
def cCredB : RefreshCredential :=
  { id := 1, user_id := 7, token_hash := "", expires_at := 105, created_at := 5
    revoked := false, replaced_by_token_id := none
    device_info := none, ip_address := none }

/-! ## Association-list lemmas -/

theorem alookup_aset_self {κ α : Type} [DecidableEq κ] (ts : List (κ × α)) (k : κ) (v : α) :
    alookup (aset ts k v) k = some v := by
  simp [aset, alookup]

theorem alookup_aset_ne {κ α : Type} [DecidableEq κ] (ts : List (κ × α)) (k k' : κ) (v : α)
    (h : k ≠ k') : alookup (aset ts k v) k' = alookup ts k' := by
  simp [aset, alookup, h]

theorem alookup_aremove_self {κ α : Type} [DecidableEq κ] (ts : List (κ × α)) (k : κ) :
    alookup (aremove ts k) k = none := by
  induction ts with
  | nil => simp [aremove, alookup]
  | cons e ts ih =>
    by_cases h : e.1 = k
    · simpa [aremove, h] using ih
    · simpa [aremove, alookup, h] using ih

/-! ## Session storage and auth-state claims -/

/-- Claim C10: hasValidSession returns true for every stored non-empty
token whose payload pipeline fails to decode (decodeToken catches the
failure and returns the empty payload) or whose decoded payload lacks
an exp field, and the initial Redux auth state built from such a stored
token has isAuthenticated = true. -/
theorem malformed_token_counts_authenticated
    (decodeRaw : String → Option TokenPayload) (st : Storage) (now : Nat) (tok : String)
    (hget : SessionManager.getToken st = some tok) (hne : tok ≠ "")
    (hmal : decodeRaw tok = none ∨ ∃ p, decodeRaw tok = some p ∧ p.exp = none) :
    SessionManager.hasValidSession decodeRaw st now = true ∧
    (authInitialState decodeRaw st now).isAuthenticated = true := by
  have h1 : SessionManager.hasValidSession decodeRaw st now = true := by
    unfold SessionManager.hasValidSession
    rw [hget]
    rcases hmal with h | ⟨p, hp, hexp⟩
    · simp [hne, SessionManager.decodeToken, h]
    · simp [hne, SessionManager.decodeToken, hp, hexp]
  exact ⟨h1, h1⟩

/-- Witness for C10: a stored garbage token that decodes to nothing
yields a session considered valid and an authenticated initial state. -/
theorem malformed_token_counts_authenticated_witness :
    SessionManager.getToken [(tokenStorageKey, "not-a-jwt")] = some "not-a-jwt" ∧
    "not-a-jwt" ≠ "" ∧
    ((fun _ => (none : Option TokenPayload)) "not-a-jwt" = none ∨
      ∃ p, (fun _ => (none : Option TokenPayload)) "not-a-jwt" = some p ∧ p.exp = none) ∧
    (SessionManager.hasValidSession (fun _ => none) [(tokenStorageKey, "not-a-jwt")] 0 = true ∧
     (authInitialState (fun _ => none) [(tokenStorageKey, "not-a-jwt")] 0).isAuthenticated = true) :=
  ⟨rfl, by decide, Or.inl rfl,
    malformed_token_counts_authenticated (fun _ => none) [(tokenStorageKey, "not-a-jwt")] 0
      "not-a-jwt" rfl (by decide) (Or.inl rfl)⟩

/-- Counterexample to claim C7: a successful login writes the access
token into browser sessionStorage (via SessionManager.setToken), so
after logging in on an empty storage the token is durably stored, not
held only in process memory. -/
theorem login_persists_access_token :
    SessionManager.getToken
      (loginAsyncRun [] (Except.ok ({ access_token := "A1" }, { id := "u1" }))).1 = some "A1" ∧
    (some "A1" : Option String) ≠ none :=
  ⟨rfl, by decide⟩

/-- Claim C7 as amended: login, registration and the setToken reducer
persist the access token to sessionStorage through
SessionManager.setToken; the initial auth state reads the token back
from sessionStorage; the logout reducer and a failed login remove it
from sessionStorage. -/
theorem token_storage_lifecycle
    (decodeRaw : String → Option TokenPayload) (st : Storage) (now : Nat)
    (tr : TokenResponse) (u : User) (s : AuthState) (msg : String) :
    SessionManager.getToken (loginAsyncRun st (.ok (tr, u))).1 = some tr.access_token ∧
    SessionManager.getToken (registerAsyncRun st (.ok (tr, u))).1 = some tr.access_token ∧
    SessionManager.getToken (setTokenReducer st s tr.access_token).1 = some tr.access_token ∧
    (authInitialState decodeRaw st now).token = SessionManager.getToken st ∧
    SessionManager.getToken (logoutReducer st s).1 = none ∧
    SessionManager.getToken (loginAsyncRun st (.error msg)).1 = none := by
  refine ⟨?_, ?_, ?_, rfl, ?_, ?_⟩ <;>
    simp [loginAsyncRun, registerAsyncRun, setTokenReducer, logoutReducer,
      SessionManager.getToken, SessionManager.setToken, SessionManager.clearToken,
      alookup_aset_self, alookup_aremove_self]

/-- Lookup of mapped credential rows when the map preserves row
identifiers. -/
theorem find_map_pres (l : List RefreshCredential) (g : RefreshCredential → RefreshCredential)
    (hg : ∀ r, (g r).id = r.id) (id : Nat) :
    (l.map g).find? (fun r => r.id = id) = (l.find? (fun r => r.id = id)).map g := by
  induction l with
  | nil => rfl
  | cons a l ih =>
    by_cases h : a.id = id
    · simp [List.find?, hg, h]
    · simp [List.find?, hg, h, ih]

/-- Whatever row revokeCredential leaves at the revoked identifier is
marked revoked. -/
theorem findRow_revokeCredential_self (s : TokenStore) (id : Nat) :
    ((findRow (revokeCredential s id) id).all fun r => r.revoked) = true := by
  have hg : ∀ r : RefreshCredential,
      ((if r.id = id then { r with revoked := true } else r) : RefreshCredential).id = r.id := by
    intro r; by_cases h : r.id = id <;> simp [h]
  unfold findRow revokeCredential
  rw [find_map_pres _ _ hg]
  cases hf : s.rows.find? (fun r => r.id = id) with
  | none => rfl
  | some r =>
    have hr : r.id = id := by
      have := List.find?_some hf
      simpa using this
    simp [hr]

/-- Claim C8: the logout operation makes the server call that revokes
the active refresh credential chain link, and clears the client session
state (user, token, authenticated flag, stored token) whether the
server call succeeds or fails; on success the revoked row is marked
revoked in the store. -/
theorem logout_calls_server_then_clears
    (store : TokenStore) (credId : Nat) (st : Storage) (s : AuthState) (serverOk : Bool) :
    (logoutAsyncRun store credId serverOk st s).2.1 = true ∧
    (logoutAsyncRun store credId serverOk st s).2.2.2.user = none ∧
    (logoutAsyncRun store credId serverOk st s).2.2.2.token = none ∧
    (logoutAsyncRun store credId serverOk st s).2.2.2.isAuthenticated = false ∧
    SessionManager.getToken (logoutAsyncRun store credId serverOk st s).2.2.1 = none ∧
    (logoutAsyncRun store credId true st s).1 = revokeCredential store credId ∧
    ((findRow (logoutAsyncRun store credId true st s).1 credId).all fun r => r.revoked) = true := by
  refine ⟨rfl, rfl, rfl, rfl, ?_, rfl, ?_⟩
  · simp [logoutAsyncRun, logoutReducer, SessionManager.getToken, SessionManager.clearToken,
      alookup_aremove_self]
  · exact findRow_revokeCredential_self store credId

/-! ## Rotation-store lemmas -/

/-- Inversion of a successful rotate: the old row existed non-revoked,
and the result store replaces it by its revoked, successor-stamped
version and appends the fresh credential. -/
theorem rotate_ok_inv {s : TokenStore} {oldId now ttl : Nat} {dev ip : Option String}
    {s' : TokenStore} {nc : RefreshCredential}
    (h : rotate s oldId now ttl dev ip = .ok (s', nc)) :
    ∃ row, findRow s oldId = some row ∧ row.revoked = false ∧
      nc = { id := s.nextId, user_id := row.user_id, token_hash := "", expires_at := now + ttl
             created_at := now, revoked := false, replaced_by_token_id := none
             device_info := dev, ip_address := ip } ∧
      s' = { rows := (s.rows.map (fun r => if r.id = oldId then
                { r with revoked := true, replaced_by_token_id := some s.nextId } else r)) ++
               [nc]
             nextId := s.nextId + 1 } := by
  unfold rotate at h
  cases hf : findRow s oldId with
  | none => rw [hf] at h; simp at h
  | some row =>
    rw [hf] at h
    by_cases hrev : row.revoked = true
    · simp [hrev] at h
    · simp only [hrev, Bool.false_eq_true, if_false, ite_false, Except.ok.injEq,
        Prod.mk.injEq] at h
      refine ⟨row, rfl, by simpa using hrev, h.2.symm, ?_⟩
      rw [← h.1, h.2]

/-- GoodStore is preserved by any row map that either keeps a row or
only sets its revoked flag. -/
theorem good_map_revoke {s : TokenStore} (g : RefreshCredential → RefreshCredential)
    (hg : ∀ r, g r = r ∨ g r = { r with revoked := true })
    (h : GoodStore s) : GoodStore { rows := s.rows.map g, nextId := s.nextId } := by
  constructor
  · intro r hr hrep
    rcases List.mem_map.mp hr with ⟨r0, hr0, rfl⟩
    rcases hg r0 with hgr | hgr
    · rw [hgr] at hrep ⊢
      exact h.1 r0 hr0 hrep
    · rw [hgr]
  · intro r hr
    rcases List.mem_map.mp hr with ⟨r0, hr0, rfl⟩
    rcases hg r0 with hgr | hgr <;> rw [hgr] <;> exact h.2 r0 hr0

/-- GoodStore is preserved by revokeChain. -/
theorem good_revokeChain {s : TokenStore} (h : GoodStore s) (id : Nat) :
    GoodStore (revokeChain s id) :=
  good_map_revoke _ (fun r => by by_cases hr : r.id ∈ chainMembers s id <;> simp [hr]) h

/-- GoodStore is preserved by revokeCredential. -/
theorem good_revokeOne {s : TokenStore} (h : GoodStore s) (id : Nat) :
    GoodStore (revokeCredential s id) :=
  good_map_revoke _ (fun r => by by_cases hr : r.id = id <;> simp [hr]) h

/-- GoodStore is preserved by createCredential. -/
theorem good_create {s : TokenStore} (h : GoodStore s) (uid now ttl : Nat)
    (dev ip : Option String) : GoodStore (createCredential s uid now ttl dev ip).1 := by
  constructor
  · intro r hr hrep
    rcases List.mem_append.mp hr with hmem | hmem
    · exact h.1 r hmem hrep
    · simp only [List.mem_singleton] at hmem
      subst hmem
      simp [createCredential] at hrep
  · intro r hr
    rcases List.mem_append.mp hr with hmem | hmem
    · exact Nat.lt_succ_of_lt (h.2 r hmem)
    · simp only [List.mem_singleton] at hmem
      subst hmem
      exact Nat.lt_succ_self _

/-- GoodStore is preserved by a successful rotate. -/
theorem good_rotate {s s' : TokenStore} {nc : RefreshCredential} {oldId now ttl : Nat}
    {dev ip : Option String} (h : GoodStore s)
    (hr : rotate s oldId now ttl dev ip = .ok (s', nc)) : GoodStore s' := by
  obtain ⟨row, -, -, hnc, rfl⟩ := rotate_ok_inv hr
  constructor
  · intro r hrm hrep
    rcases List.mem_append.mp hrm with hmem | hmem
    · rcases List.mem_map.mp hmem with ⟨r0, hr0, rfl⟩
      by_cases hid : r0.id = oldId
      · simp [hid]
      · rw [if_neg hid] at hrep ⊢
        exact h.1 r0 hr0 hrep
    · simp only [List.mem_singleton] at hmem
      subst hmem
      rw [hnc] at hrep
      simp at hrep
  · intro r hrm
    rcases List.mem_append.mp hrm with hmem | hmem
    · rcases List.mem_map.mp hmem with ⟨r0, hr0, rfl⟩
      have h0 := h.2 r0 hr0
      by_cases hid : r0.id = oldId <;> simp [hid] <;> omega
    · simp only [List.mem_singleton] at hmem
      subst hmem
      rw [hnc]
      exact Nat.lt_succ_self _

/-- GoodStore is preserved by the refresh decision procedure. -/
theorem good_refresh {s : TokenStore} (h : GoodStore s) (id now ttl : Nat)
    (dev ip : Option String) : GoodStore (refreshEngine s id now ttl dev ip).1 := by
  unfold refreshEngine
  cases hf : findRow s id with
  | none => simpa using h
  | some row =>
    by_cases hrev : row.revoked
    · simpa [hrev] using good_revokeChain h id
    · by_cases hexp : row.expires_at ≤ now
      · simpa [hrev, hexp] using h
      · simp only [hrev, hexp, if_neg, if_false, Bool.false_eq_true, ite_false]
        cases hrot : rotate s id now ttl dev ip with
        | ok pr =>
          cases pr with
          | mk s' nc => simpa using good_rotate h hrot
        | error e => simpa using h

/-- Every reachable store satisfies the structural invariant. -/
theorem reachable_good {s : TokenStore} (h : Reachable s) : GoodStore s := by
  induction h with
  | empty => exact ⟨by simp [emptyStore], by simp [emptyStore]⟩
  | create uid now ttl dev ip _ ih => exact good_create ih uid now ttl dev ip
  | rotateOk oldId now ttl dev ip _ hrot ih => exact good_rotate ih hrot
  | revokeChainStep id _ ih => exact good_revokeChain ih id
  | revokeOne id _ ih => exact good_revokeOne ih id
  | refreshStep id now ttl dev ip _ ih => exact good_refresh ih id now ttl dev ip

/-- Every identifier collected by the forward chain walk has a row. -/
theorem chain_mem_row {s : TokenStore} :
    ∀ {fuel id m : Nat}, m ∈ forwardChain s fuel id → ∃ r, findRow s m = some r := by
  intro fuel
  induction fuel with
  | zero =>
    intro id m hm
    cases hf : findRow s id with
    | none => simp [forwardChain, hf] at hm
    | some r =>
      simp [forwardChain, hf] at hm
      subst hm
      exact ⟨r, hf⟩
  | succ fuel ih =>
    intro id m hm
    cases hf : findRow s id with
    | none => simp [forwardChain, hf] at hm
    | some row =>
      cases hsucc : row.replaced_by_token_id with
      | none =>
        simp [forwardChain, hf, hsucc] at hm
        subst hm
        exact ⟨row, hf⟩
      | some nxt =>
        simp [forwardChain, hf, hsucc] at hm
        rcases hm with rfl | hm
        · exact ⟨row, hf⟩
        · exact ih hm

/-- Under the structural invariant, a forward chain walk contains at
most one non-revoked identifier: every non-terminal link carries a
successor reference and is therefore revoked. -/
theorem chain_one_unrevoked {s : TokenStore}
    (hinv : ∀ r ∈ s.rows, r.replaced_by_token_id ≠ none → r.revoked = true) :
    ∀ {fuel id a b : Nat}, a ∈ forwardChain s fuel id → b ∈ forwardChain s fuel id →
      isUnrevoked s a = true → isUnrevoked s b = true → a = b := by
  intro fuel
  induction fuel with
  | zero =>
    intro id a b ha hb _ _
    cases hf : findRow s id with
    | none => simp [forwardChain, hf] at ha
    | some r =>
      simp [forwardChain, hf] at ha hb
      rw [ha, hb]
  | succ fuel ih =>
    intro id a b ha hb hA hB
    cases hf : findRow s id with
    | none => simp [forwardChain, hf] at ha
    | some row =>
      cases hsucc : row.replaced_by_token_id with
      | none =>
        simp [forwardChain, hf, hsucc] at ha hb
        rw [ha, hb]
      | some nxt =>
        have hrev : row.revoked = true := by
          refine hinv row (List.mem_of_find?_eq_some hf) ?_
          simp [hsucc]
        have hid : isUnrevoked s id = false := by
          simp [isUnrevoked, hf, hrev]
        simp [forwardChain, hf, hsucc] at ha hb
        rcases ha with rfl | ha
        · rw [hid] at hA; cases hA
        · rcases hb with rfl | hb
          · rw [hid] at hB; cases hB
          · exact ih ha hb hA hB

/-- An active identifier is in particular non-revoked. -/
theorem active_unrevoked {s : TokenStore} {now a : Nat} (h : isActive s now a = true) :
    isUnrevoked s a = true := by
  unfold isActive at h
  unfold isUnrevoked
  cases hf : findRow s a with
  | none => rw [hf] at h; cases h
  | some r =>
    rw [hf] at h
    simp at h
    simp [h.1]

/-- Postconditions of a successful rotate on a well-formed store: the
old row is left revoked with its successor reference stamped, and the
fresh credential is stored active. -/
theorem rotate_post {s s' : TokenStore} {nc : RefreshCredential} {oldId now ttl : Nat}
    {dev ip : Option String} (hg : GoodStore s)
    (h : rotate s oldId now ttl dev ip = .ok (s', nc)) :
    (∃ oldRow, findRow s' oldId = some oldRow ∧ oldRow.revoked = true ∧
      oldRow.replaced_by_token_id = some nc.id) ∧
    nc.revoked = false ∧ findRow s' nc.id = some nc := by
  obtain ⟨row, hf, hrev, hnc, rfl⟩ := rotate_ok_inv h
  have hgid : ∀ r : RefreshCredential,
      ((if r.id = oldId then
          { r with revoked := true, replaced_by_token_id := some s.nextId } else r) :
        RefreshCredential).id = r.id := by
    intro r; by_cases hr : r.id = oldId <;> simp [hr]
  have hrowid : row.id = oldId := by
    have := List.find?_some hf
    simpa using this
  constructor
  · refine ⟨{ row with revoked := true, replaced_by_token_id := some s.nextId }, ?_, rfl, ?_⟩
    · unfold findRow
      rw [List.find?_append]
      have hleft : (s.rows.map (fun r => if r.id = oldId then
          { r with revoked := true, replaced_by_token_id := some s.nextId } else r)).find?
            (fun r => r.id = oldId) =
          some { row with revoked := true, replaced_by_token_id := some s.nextId } := by
        rw [find_map_pres _ _ hgid]
        unfold findRow at hf
        rw [hf]
        simp [hrowid]
      rw [hleft]
      rfl
    · rw [hnc]
  · refine ⟨by rw [hnc], ?_⟩
    unfold findRow
    rw [List.find?_append]
    have hnone : (s.rows.map (fun r => if r.id = oldId then
        { r with revoked := true, replaced_by_token_id := some s.nextId } else r)).find?
          (fun r => r.id = nc.id) = none := by
      rw [List.find?_eq_none]
      intro x hx
      rcases List.mem_map.mp hx with ⟨r0, hr0, rfl⟩
      have hlt := hg.2 r0 hr0
      rw [hgid r0]
      rw [hnc]
      simp
      omega
    rw [hnone]
    simp [hnc]

/-- Claim C5: after any successful rotate the old credential is revoked
with its successor reference equal to the new identifier, the new
credential is non-revoked, and in the resulting store every rotation
chain holds at most one active (non-revoked, unexpired) credential. -/
theorem rotation_single_active
    (s s' : TokenStore) (nc : RefreshCredential) (oldId now ttl : Nat) (dev ip : Option String)
    (id now2 a b : Nat)
    (hreach : Reachable s)
    (hrot : rotate s oldId now ttl dev ip = .ok (s', nc))
    (ha : a ∈ chainMembers s' id) (hb : b ∈ chainMembers s' id)
    (hA : isActive s' now2 a = true) (hB : isActive s' now2 b = true) :
    (∃ oldRow, findRow s' oldId = some oldRow ∧ oldRow.revoked = true ∧
      oldRow.replaced_by_token_id = some nc.id) ∧
    nc.revoked = false ∧ findRow s' nc.id = some nc ∧ a = b := by
  have hg : GoodStore s := reachable_good hreach
  have hg' : GoodStore s' :=
    reachable_good (Reachable.rotateOk oldId now ttl dev ip hreach hrot)
  have hpost := rotate_post hg hrot
  have hab : a = b := by
    unfold chainMembers at ha hb
    exact chain_one_unrevoked hg'.1 ha hb (active_unrevoked hA) (active_unrevoked hB)
  exact ⟨hpost.1, hpost.2.1, hpost.2.2, hab⟩

/-- Witness for C5 at the one-rotation store: rotating credential 0 into
credential 1 leaves 0 revoked pointing at 1, 1 active, and the chain of
0 holds a single active member. -/
theorem rotation_single_active_witness :
    Reachable cStoreA ∧
    rotate cStoreA 0 5 100 none none = .ok (cStoreB, cCredB) ∧
    1 ∈ chainMembers cStoreB 0 ∧ isActive cStoreB 5 1 = true ∧
    ((∃ oldRow, findRow cStoreB 0 = some oldRow ∧ oldRow.revoked = true ∧
        oldRow.replaced_by_token_id = some cCredB.id) ∧
      cCredB.revoked = false ∧ findRow cStoreB cCredB.id = some cCredB ∧ 1 = 1) :=
  ⟨Reachable.create 7 0 100 none none Reachable.empty, rfl, by decide, by decide,
    rotation_single_active cStoreA cStoreB cCredB 0 5 100 none none 0 5 1 1
      (Reachable.create 7 0 100 none none Reachable.empty) rfl (by decide) (by decide)
      (by decide) (by decide)⟩

/-- Claim C6: presenting a revoked credential to the refresh engine
fails SessionCompromised, every credential of that rotation chain is
revoked afterward, and any subsequent use of any chain member also
fails SessionCompromised. -/
theorem replay_revokes_chain
    (s : TokenStore) (id now ttl now2 ttl2 m : Nat) (dev ip dev2 ip2 : Option String)
    (row : RefreshCredential)
    (hfind : findRow s id = some row) (hrev : row.revoked = true)
    (hm : m ∈ chainMembers s id) :
    (refreshEngine s id now ttl dev ip).2 = .error .SessionCompromised ∧
    (∃ r', findRow (refreshEngine s id now ttl dev ip).1 m = some r' ∧ r'.revoked = true) ∧
    (refreshEngine (refreshEngine s id now ttl dev ip).1 m now2 ttl2 dev2 ip2).2 =
      .error .SessionCompromised := by
  have heng : refreshEngine s id now ttl dev ip = (revokeChain s id, .error .SessionCompromised) := by
    unfold refreshEngine
    rw [hfind]
    simp [hrev]
  obtain ⟨r, hr⟩ := chain_mem_row (by unfold chainMembers at hm; exact hm)
  have hrid : r.id = m := by
    have := List.find?_some hr
    simpa using this
  have hrow' : findRow (revokeChain s id) m = some { r with revoked := true } := by
    have hgid : ∀ r0 : RefreshCredential,
        ((if r0.id ∈ chainMembers s id then { r0 with revoked := true } else r0) :
          RefreshCredential).id = r0.id := by
      intro r0; by_cases h0 : r0.id ∈ chainMembers s id <;> simp [h0]
    unfold revokeChain findRow
    rw [find_map_pres _ _ hgid]
    unfold findRow at hr
    rw [hr]
    have : r.id ∈ chainMembers s id := by rw [hrid]; exact hm
    simp [this]
  refine ⟨by rw [heng], ⟨{ r with revoked := true }, by rw [heng]; exact hrow', rfl⟩, ?_⟩
  rw [heng]
  show (refreshEngine (revokeChain s id) m now2 ttl2 dev2 ip2).2 = _
  unfold refreshEngine
  rw [hrow']
  simp

/-- Witness for C6 at the one-rotation store: replaying the rotated
credential 0 fails SessionCompromised, revokes its successor 1, and a
subsequent use of 1 fails SessionCompromised as well. -/
theorem replay_revokes_chain_witness :
    findRow cStoreB 0 = some { id := 0, user_id := 7, token_hash := "", expires_at := 100
                               created_at := 0, revoked := true, replaced_by_token_id := some 1
                               device_info := none, ip_address := none } ∧
    1 ∈ chainMembers cStoreB 0 ∧
    ((refreshEngine cStoreB 0 6 100 none none).2 = .error .SessionCompromised ∧
      (∃ r', findRow (refreshEngine cStoreB 0 6 100 none none).1 1 = some r' ∧
        r'.revoked = true) ∧
      (refreshEngine (refreshEngine cStoreB 0 6 100 none none).1 1 6 100 none none).2 =
        .error .SessionCompromised) :=
  ⟨rfl, by decide,
    replay_revokes_chain cStoreB 0 6 100 6 100 1 none none none none
      { id := 0, user_id := 7, token_hash := "", expires_at := 100
        created_at := 0, revoked := true, replaced_by_token_id := some 1
        device_info := none, ip_address := none }
      rfl rfl (by decide)⟩

/-! ## Transport interleaving lemmas -/

/-- The two-request schedule: the first handler starts the refresh, the
second observes it in flight and awaits the recorded promise. -/
theorem w1ExecHolds : Exec [Label.enterStart 0, Label.enterAwait 1] w1Start w1End :=
  Exec.cons (Step.enterStart rfl rfl rfl)
    (Exec.cons (Step.enterAwait rfl rfl rfl rfl) Exec.nil)

/-- The single-request schedule with a successful refresh and replay. -/
theorem c2ExecHolds : Exec c2Trace c2Start c2End :=
  Exec.cons (Step.enterStart rfl rfl rfl)
    (Exec.cons (Step.refreshResolves rfl (by decide))
      (Exec.cons (Step.starterOk rfl rfl) Exec.nil))

/-- The two-request schedule with a failed refresh observed by the
waiter and then by the initiator. -/
theorem c9ExecHolds : Exec c9Trace w1Start c9End :=
  Exec.cons (Step.enterStart rfl rfl rfl)
    (Exec.cons (Step.enterAwait rfl rfl rfl rfl)
      (Exec.cons (Step.refreshRejects rfl (by decide))
        (Exec.cons (Step.awaitedErr rfl rfl)
          (Exec.cons (Step.starterErr rfl rfl) Exec.nil))))

/-- Each synchronous block dispatches a session-expired event exactly
when it observes a failed refresh, and no block dispatches more than
one. -/
theorem step_notifications {l : Label} {s s1 : Sys} (h : Step l s s1) :
    s1.notifications = s.notifications + (if observesFailure l then 1 else 0) := by
  cases h <;> simp [observesFailure, setAccessToken]

/-- While a refresh is in flight (isRefreshing set, its promise
recorded) and only authorization-failure handlers run, no further
refresh call starts: the flags and the call counter are unchanged,
every label is an await of the recorded promise, waiting handlers stay
waiting, and every handler that entered is waiting on the recorded
promise. -/
theorem refresh_window {ls : List Label} {s s1 : Sys} {r0 : Nat} (h : Exec ls s s1) :
    s.isRefreshing = true → s.refreshPromise = some r0 → (∀ l ∈ ls, isAuthFailEnter l) →
    s1.isRefreshing = true ∧ s1.refreshPromise = some r0 ∧
    s1.refreshCalls = s.refreshCalls ∧
    (∀ l ∈ ls, ∃ tid, l = Label.enterAwait tid) ∧
    (∀ tid cfg, alookup s.tasks tid = some (Phase.waitingOn cfg r0) →
      alookup s1.tasks tid = some (Phase.waitingOn cfg r0)) ∧
    (∀ tid, Label.enterAwait tid ∈ ls →
      ∃ cfg, alookup s1.tasks tid = some (Phase.waitingOn cfg r0)) := by
  induction h with
  | nil =>
    intro hr hp _
    exact ⟨hr, hp, rfl, by simp, fun tid cfg hw => hw, by simp⟩
  | @cons l ls2 sa sb sc hstep hexec ih =>
    intro hr hp hall
    rcases hall l (List.mem_cons_self _ _) with ⟨tid, rfl⟩ | ⟨tid, rfl⟩ | ⟨tid, rfl⟩
    · cases hstep with
      | enterStart h1 h2 h3 =>
        rw [hr] at h3
        cases h3
    · cases hstep with
      | enterAwait h1 h2 h3 h4 =>
        rename_i rid cfg
        have hrid : rid = r0 := by
          have := hp.symm.trans h4
          exact (Option.some.inj this).symm
        subst hrid
        have hall2 : ∀ l ∈ ls2, isAuthFailEnter l :=
          fun l hl => hall l (List.mem_cons_of_mem _ hl)
        obtain ⟨w1, w2, w3, w4, w5, w6⟩ := ih hr hp hall2
        refine ⟨w1, w2, w3, ?_, ?_, ?_⟩
        · intro l hl
          rcases List.mem_cons.mp hl with rfl | hl
          · exact ⟨tid, rfl⟩
          · exact w4 l hl
        · intro tid' cfg' hw
          apply w5
          by_cases htid : tid = tid'
          · subst htid
            rw [h1] at hw
            cases hw
          · rw [alookup_aset_ne _ _ _ _ htid]
            exact hw
        · intro tid' hmem
          rcases List.mem_cons.mp hmem with heq | hmem
          · have htid : tid' = tid := by
              injection heq
            subst htid
            exact ⟨cfg, w5 tid' cfg (alookup_aset_self _ _ _)⟩
          · exact w6 tid' hmem
    · cases hstep with
      | enterAwaitNull h1 h2 h3 h4 =>
        have := hp.symm.trans h4
        cases this

/-- Claim C1 (single flight): when N authorization-failure handlers
(N at least 2) run within one expiry window — no refresh in flight at
the start, and nothing but 401 handlers scheduled until the window
closes — exactly one refresh network call is made; the first handler
starts it and records its promise, and every later handler awaits that
recorded promise instead of starting a second call. -/
theorem single_flight_refresh {ls : List Label} {s0 s1 : Sys}
    (h : Exec ls s0 s1) (h0 : s0.isRefreshing = false) (hN : 2 ≤ ls.length)
    (hall : ∀ l ∈ ls, isAuthFailEnter l) :
    s1.refreshCalls = s0.refreshCalls + 1 ∧ s1.isRefreshing = true ∧
    (∃ tid0 rest, ls = Label.enterStart tid0 :: rest ∧
      ∃ r0, s1.refreshPromise = some r0 ∧
        (∀ l ∈ rest, ∃ tid, l = Label.enterAwait tid) ∧
        (∀ tid, Label.enterAwait tid ∈ rest →
          ∃ cfg, alookup s1.tasks tid = some (Phase.waitingOn cfg r0))) := by
  cases h with
  | nil => simp at hN
  | @cons l ls2 sa sb sc hstep hexec =>
    rcases hall l (List.mem_cons_self _ _) with ⟨tid, rfl⟩ | ⟨tid, rfl⟩ | ⟨tid, rfl⟩
    · cases hstep with
      | enterStart h1 h2 h3 =>
        have hall2 : ∀ l ∈ ls2, isAuthFailEnter l :=
          fun l hl => hall l (List.mem_cons_of_mem _ hl)
        obtain ⟨w1, w2, w3, w4, w5, w6⟩ := refresh_window hexec rfl rfl hall2
        exact ⟨w3, w1, tid, ls2, rfl, s0.nextRid, w2, w4, w6⟩
    · cases hstep with
      | enterAwait h1 h2 h3 h4 =>
        rw [h0] at h3
        cases h3
    · cases hstep with
      | enterAwaitNull h1 h2 h3 h4 =>
        rw [h0] at h3
        cases h3

/-- Witness for C1: two requests fail under the expired token A1; the
schedule starts one refresh and parks the second handler on its
promise. -/
theorem single_flight_refresh_witness :
    Exec [Label.enterStart 0, Label.enterAwait 1] w1Start w1End ∧
    w1Start.isRefreshing = false ∧
    2 ≤ ([Label.enterStart 0, Label.enterAwait 1] : List Label).length ∧
    (∀ l ∈ [Label.enterStart 0, Label.enterAwait 1], isAuthFailEnter l) ∧
    (w1End.refreshCalls = w1Start.refreshCalls + 1 ∧ w1End.isRefreshing = true ∧
      (∃ tid0 rest, [Label.enterStart 0, Label.enterAwait 1] = Label.enterStart tid0 :: rest ∧
        ∃ r0, w1End.refreshPromise = some r0 ∧
          (∀ l ∈ rest, ∃ tid, l = Label.enterAwait tid) ∧
          (∀ tid, Label.enterAwait tid ∈ rest →
            ∃ cfg, alookup w1End.tasks tid = some (Phase.waitingOn cfg r0)))) := by
  have hall : ∀ l ∈ [Label.enterStart 0, Label.enterAwait 1], isAuthFailEnter l := by
    intro l hl
    rcases List.mem_cons.mp hl with rfl | hl
    · exact Or.inl ⟨0, rfl⟩
    rcases List.mem_cons.mp hl with rfl | hl
    · exact Or.inr (Or.inl ⟨1, rfl⟩)
    · simp at hl
  exact ⟨w1ExecHolds, rfl, by decide, hall,
    single_flight_refresh w1ExecHolds rfl (by decide) hall⟩

/-- Claim C4: a 401 received on the refresh call itself (a request
whose URL contains /auth/refresh) never triggers another refresh: the
only block that can move such a handler rethrows the ApiError, leaving
the refresh-call counter, the isRefreshing flag and the recorded
promise untouched, and the pure branch decision for such a request is
the rethrow branch. -/
theorem refresh_call_401_rethrows {s s1 : Sys} {l : Label} {tid : Nat} {cfg : ReqConfig}
    {u : String}
    (htask : alookup s.tasks tid = some (Phase.failed401 cfg))
    (hurl : cfg.url = some u) (hinc : strIncludes u "/auth/refresh" = true)
    (hstep : Step l s s1) (hch : alookup s1.tasks tid ≠ alookup s.tasks tid) :
    alookup s1.tasks tid = some (Phase.thrownRefresh401 cfg) ∧
    s1.refreshCalls = s.refreshCalls ∧ s1.isRefreshing = s.isRefreshing ∧
    s1.refreshPromise = s.refreshPromise ∧
    handlerDecision s.isRefreshing 401 (some cfg) = HandlerAction.rethrowError := by
  have hu : urlTriggersRefresh cfg.url = false := by
    rw [hurl]
    simp [urlTriggersRefresh, hinc]
  have hdec : handlerDecision s.isRefreshing 401 (some cfg) = HandlerAction.rethrowError := by
    simp [handlerDecision, entersRefreshFlow, hu]
  cases hstep with
  | enterNoFlow h1 h2 =>
    rename_i tid' cfg'
    by_cases htid : tid' = tid
    · subst htid
      have hcfg : cfg = cfg' := by
        have := htask.symm.trans h1
        injection this with h3
        injection h3
      subst hcfg
      exact ⟨alookup_aset_self _ _ _, rfl, rfl, rfl, hdec⟩
    · exact absurd (alookup_aset_ne _ _ _ _ htid) hch
  | enterAwait h1 h2 h3 h4 =>
    rename_i tid' rid cfg'
    by_cases htid : tid' = tid
    · subst htid
      have hcfg : cfg = cfg' := by
        have := htask.symm.trans h1
        injection this with h5
        injection h5
      subst hcfg
      rw [hu] at h2
      cases h2
    · exact absurd (alookup_aset_ne _ _ _ _ htid) hch
  | enterAwaitNull h1 h2 h3 h4 =>
    rename_i tid' cfg'
    by_cases htid : tid' = tid
    · subst htid
      have hcfg : cfg = cfg' := by
        have := htask.symm.trans h1
        injection this with h5
        injection h5
      subst hcfg
      rw [hu] at h2
      cases h2
    · exact absurd (alookup_aset_ne _ _ _ _ htid) hch
  | enterStart h1 h2 h3 =>
    rename_i tid' cfg'
    by_cases htid : tid' = tid
    · subst htid
      have hcfg : cfg = cfg' := by
        have := htask.symm.trans h1
        injection this with h5
        injection h5
      subst hcfg
      rw [hu] at h2
      cases h2
    · exact absurd (alookup_aset_ne _ _ _ _ htid) hch
  | refreshResolves h1 h2 =>
    exact absurd rfl hch
  | refreshRejects h1 h2 =>
    exact absurd rfl hch
  | awaitedOk h1 h2 =>
    rename_i tid' rid cfg' tok
    by_cases htid : tid' = tid
    · subst htid
      have := htask.symm.trans h1
      cases this
    · exact absurd (alookup_aset_ne _ _ _ _ htid) hch
  | awaitedErr h1 h2 =>
    rename_i tid' rid cfg'
    by_cases htid : tid' = tid
    · subst htid
      have := htask.symm.trans h1
      cases this
    · exact absurd (alookup_aset_ne _ _ _ _ htid) hch
  | starterOk h1 h2 =>
    rename_i tid' rid cfg' tok
    by_cases htid : tid' = tid
    · subst htid
      have := htask.symm.trans h1
      cases this
    · exact absurd (alookup_aset_ne _ _ _ _ htid) hch
  | starterErr h1 h2 =>
    rename_i tid' rid cfg'
    by_cases htid : tid' = tid
    · subst htid
      have := htask.symm.trans h1
      cases this
    · exact absurd (alookup_aset_ne _ _ _ _ htid) hch

/-- Witness for C4: the refresh call itself fails with 401; its handler
rethrows without starting a refresh. -/
theorem refresh_call_401_rethrows_witness :
    alookup w4Start.tasks 0 = some (Phase.failed401 cfgRefreshCall) ∧
    cfgRefreshCall.url = some "/api/auth/refresh" ∧
    strIncludes "/api/auth/refresh" "/auth/refresh" = true ∧
    Step (Label.enterNoFlow 0) w4Start w4End ∧
    alookup w4End.tasks 0 ≠ alookup w4Start.tasks 0 ∧
    (alookup w4End.tasks 0 = some (Phase.thrownRefresh401 cfgRefreshCall) ∧
      w4End.refreshCalls = w4Start.refreshCalls ∧
      w4End.isRefreshing = w4Start.isRefreshing ∧
      w4End.refreshPromise = w4Start.refreshPromise ∧
      handlerDecision w4Start.isRefreshing 401 (some cfgRefreshCall) =
        HandlerAction.rethrowError) := by
  have hstep : Step (Label.enterNoFlow 0) w4Start w4End := Step.enterNoFlow rfl rfl
  exact ⟨rfl, rfl, by decide, hstep, by decide,
    refresh_call_401_rethrows rfl rfl (by decide) hstep (by decide)⟩

/-- Counterexample to claim C9: a failed refresh with one queued waiter
is a single terminal session transition (one refresh rejection in the
schedule), yet two session-expired events are dispatched — one by the
waiter, one by the initiator. -/
theorem two_expired_events_one_failure :
    Exec c9Trace w1Start c9End ∧
    c9Trace.countP (fun l => match l with
      | Label.refreshRejects _ => true
      | _ => false) = 1 ∧
    c9End.notifications = 2 ∧ (2 : Nat) ≠ 1 :=
  ⟨c9ExecHolds, by decide, rfl, by decide⟩

/-- Claim C9 as amended: on a terminal refresh failure every request
observing the failure (the initiator and each queued waiter) dispatches
its own session-expired event, so a schedule emits exactly as many
notifications as failure observations — N+1 for N queued waiters, not
exactly one. -/
theorem notifications_match_failure_observers {ls : List Label} {s s1 : Sys}
    (h : Exec ls s s1) :
    s1.notifications = s.notifications + ls.countP observesFailure := by
  induction h with
  | nil => simp
  | @cons l ls2 sa sb sc hstep hexec ih =>
    have hs := step_notifications hstep
    rw [List.countP_cons, ih, hs]
    omega

/-- Witness for C9 as amended: the failed-refresh schedule with one
waiter has two failure observations and dispatches two events. -/
theorem notifications_match_failure_observers_witness :
    Exec c9Trace w1Start c9End ∧
    c9End.notifications = w1Start.notifications + c9Trace.countP observesFailure :=
  ⟨c9ExecHolds, notifications_match_failure_observers c9ExecHolds⟩

/-- Claim C2 evaluated at a failing input: request R1 was dispatched
with Authorization Bearer A1 baked into its config; the refresh
succeeds and stores A2 (and sets the instance default header to Bearer
A2), but the replay of R1 re-sends the stored config, whose baked-in
Bearer A1 header takes precedence over the updated default — the retry
does not carry the post-refresh token. -/
theorem retry_sends_stale_auth_header :
    Exec c2Trace c2Start c2End ∧
    c2End.accessToken = some "A2" ∧ c2End.defaultsAuth = some ("Bearer " ++ "A2") ∧
    alookup c2End.tasks 0 =
      some (Phase.retried { url := some "/api/clubs", auth := some "Bearer A1" }) ∧
    (some "Bearer A1" : Option String) ≠ some ("Bearer " ++ "A2") :=
  ⟨c2ExecHolds, rfl, rfl, rfl, by decide⟩

/-- Claim C3 evaluated at a failing input: after the successful refresh
and replay, the closure flags are reset; when the replayed request
fails authorization again the interceptor — which keeps no per-request
retry marker — takes the start-a-new-refresh branch, not a terminal
rethrow, so the request enters another refresh-and-retry cycle. -/
theorem second_401_starts_new_cycle :
    Exec c2Trace c2Start c2End ∧
    alookup c2End.tasks 0 =
      some (Phase.retried { url := some "/api/clubs", auth := some "Bearer A1" }) ∧
    c2End.isRefreshing = false ∧
    handlerDecision c2End.isRefreshing 401
        (some { url := some "/api/clubs", auth := some "Bearer A1" }) =
      HandlerAction.startNetworkRefresh ∧
    HandlerAction.startNetworkRefresh ≠ HandlerAction.rethrowError :=
  ⟨c2ExecHolds, rfl, rfl, by decide, by decide⟩

end PublicSquare
